import Mathlib

/-!
Shallow embedding of the ButBrain service (src/main.py and src/tools.py).

External collaborators (the yfinance market-data client, the Exa search
client, the Groq LLM backend) are modelled as oracle parameters stored in
environment records; an exception raised by a collaborator is modelled by
an `Except`-style outcome, and each Python try/except block becomes an
explicit match on that outcome.  Machine floats are idealised as exact
rationals; the one genuinely irrational quantity (the standard deviation,
a square root) lives in `ℝ`.  Calls made to external collaborators are
recorded in an explicit call trace where a claim depends on whether a
call happens at all.
-/

namespace ButBrain

/-- Python3 banker rounding of an exact rational to the nearest integer:
ties go to the even neighbour. -/
def pyRoundInt (x : ℚ) : ℤ :=
  if x - ⌊x⌋ < 1/2 then ⌊x⌋
  else if 1/2 < x - ⌊x⌋ then ⌊x⌋ + 1
  else if ⌊x⌋ % 2 = 0 then ⌊x⌋ else ⌊x⌋ + 1

/-- Python `round(x, 2)` on an exact rational. -/
def pyRound2 (x : ℚ) : ℚ := (pyRoundInt (x * 100) : ℚ) / 100

/-- Real-valued variant of `pyRoundInt`, for the volatility value. -/
noncomputable def pyRoundIntR (x : ℝ) : ℤ :=
  if x - ⌊x⌋ < 1/2 then ⌊x⌋
  else if 1/2 < x - ⌊x⌋ then ⌊x⌋ + 1
  else if ⌊x⌋ % 2 = 0 then ⌊x⌋ else ⌊x⌋ + 1

/-- Real-valued variant of `pyRound2`. -/
noncomputable def pyRound2R (x : ℝ) : ℝ := (pyRoundIntR (x * 100) : ℝ) / 100

/-- Daily simple returns, `hist['Close'].pct_change()` (tools.py line 26).
Pandas also produces a leading NaN entry; since the only consumer,
`.std()`, skips NaN entries, the model keeps just the true returns. -/
def dailyReturns (closes : List ℚ) : List ℚ :=
  List.zipWith (fun prev cur => (cur - prev) / prev) closes closes.tail

/-- Arithmetic mean of a list of rationals. -/
def listMean (xs : List ℚ) : ℚ := xs.sum / xs.length

/-- Pandas sample variance (`ddof = 1`): `none` models the NaN that
pandas `.std()` yields on fewer than two observations. -/
def sampleVar (xs : List ℚ) : Option ℚ :=
  if xs.length < 2 then none
  else some ((xs.map (fun x => (x - listMean xs) ^ 2)).sum / ((xs.length : ℚ) - 1))

/-- Annualized volatility percentage (tools.py lines 26-27 and 43):
`round(hist['returns'].std() * np.sqrt(252) * 100, 2)`.  `none` models
the NaN produced when fewer than two daily returns exist. -/
noncomputable def annVolPct (closes : List ℚ) : Option ℝ :=
  (sampleVar (dailyReturns closes)).map
    (fun v => pyRound2R (Real.sqrt (v : ℝ) * Real.sqrt 252 * 100))

/-- Outcome of the options-chain sub-fetch (tools.py lines 31-40):
either the whole block raised (`fail`, absorbed by the bare except),
or `ticker.options` was empty, or a chain with total put/call volumes
was obtained. -/
inductive OptFetch
  | fail
  | noExpiries
  | chain (putsVol callsVol : ℚ)
  deriving DecidableEq

/-- Value of the `put_call_ratio_estimate` field: the string sentinel
`"Data Unavailable"` or a number. -/
inductive PcrVal
  | unavailable
  | num (r : ℚ)
  deriving DecidableEq

/-- The put/call-ratio computation of tools.py lines 30-40: the sentinel
survives unless a chain is present and total call volume is positive. -/
def pcrOf : OptFetch → PcrVal
  | .chain p c => if 0 < c then .num (pyRound2 (p / c)) else .unavailable
  | _ => .unavailable

/-- One row of the fetched daily price table, as used by the metrics
routine (Close, High, Low columns). -/
structure PriceRow where
  close : ℚ
  high : ℚ
  low : ℚ
  deriving DecidableEq

/-- Environment of `get_expert_metrics`: result of the 1-year history
fetch (`.error` models a raised exception) and of the options sub-fetch. -/
structure MetricsEnv where
  histFetch : Except String (List PriceRow)
  optFetch : OptFetch

/-- The successful metrics dictionary of tools.py lines 42-48.  The
source keys `52_week_high`/`52_week_low` are not valid Lean names and
become `week52_high`/`week52_low`. -/
structure MetricsData where
  annualized_volatility_percent : Option ℝ
  put_call_ratio_estimate : PcrVal
  current_price : ℚ
  week52_high : ℚ
  week52_low : ℚ

/-- Result of `get_expert_metrics`: either the error dictionary
`{"error": msg}` or the metrics dictionary. -/
inductive MetricsOutcome
  | err (msg : String)
  | ok (d : MetricsData)

/-- Maximum of a list (used on the nonempty High column). -/
def maxListQ : List ℚ → ℚ
  | [] => 0
  | x :: xs => xs.foldl max x

/-- Minimum of a list (used on the nonempty Low column). -/
def minListQ : List ℚ → ℚ
  | [] => 0
  | x :: xs => xs.foldl min x

/-- The metrics dictionary built on the nonempty-history path of
tools.py lines 42-48 (`getLastD` is only reached on nonempty input). -/
noncomputable def metricsRecord (hist : List PriceRow) (opt : OptFetch) : MetricsData where
  annualized_volatility_percent := annVolPct (hist.map PriceRow.close)
  put_call_ratio_estimate := pcrOf opt
  current_price := pyRound2 ((hist.map PriceRow.close).getLastD 0)
  week52_high := pyRound2 (maxListQ (hist.map PriceRow.high))
  week52_low := pyRound2 (minListQ (hist.map PriceRow.low))

/-- `get_expert_metrics` (tools.py lines 16-51): the outer try/except
turns a raised fetch exception into `{"error": str(e)}`; an empty table
yields `{"error": "No price data found."}`; otherwise the metrics
dictionary is returned (options-chain failures never escape, see
`pcrOf`). -/
noncomputable def get_expert_metrics (env : MetricsEnv) : MetricsOutcome :=
  match env.histFetch with
  | .error e => .err e
  | .ok hist =>
    match hist with
    | [] => .err "No price data found."
    | r :: rs => .ok (metricsRecord (r :: rs) env.optFetch)

/-- One row of the 2-year price table used by `perform_deep_scan`
(index date plus Close column). -/
structure ScanRow where
  date : String
  close : ℚ
  deriving DecidableEq

/-- Outcome of one Exa `search_and_contents` call (tools.py lines
82-97): the call raised (`fail`), returned no results, or returned one
result whose `.text` attribute is `none` (Python `None`) or a string. -/
inductive SearchOutcome
  | fail
  | noResults
  | result (text : Option String)
  deriving DecidableEq

/-- Environment of `perform_deep_scan`: whether the module-level Exa
client was constructed, the result of the 2-year history fetch, and the
behaviour of the search backend per query string. -/
structure ScanEnv where
  exaConfigured : Bool
  histFetch : Except String (List ScanRow)
  search : String → SearchOutcome

/-- External calls issued by the scan, recorded as a trace. -/
inductive ScanCall
  | histFetchCall
  | searchCall (q : String)
  deriving DecidableEq

/-- One entry of the returned events list.  The synthetic
configuration-error dictionary of tools.py line 58 carries no
`magnitude` key, modelled by `magnitude := none`. -/
structure Event where
  date : String
  type : String
  magnitude : Option String
  possible_cause : String
  deriving DecidableEq

/-- The synthetic event returned when the Exa client is unconfigured
(tools.py line 58). -/
def configEvent : Event :=
  { date := "Error", type := "Config", magnitude := none,
    possible_cause := "EXA_API_KEY missing" }

/-- `hist['Pct_Change'] = hist['Close'].pct_change() * 100` (tools.py
line 67), keeping each row's date.  The leading NaN row fails both
threshold comparisons in pandas and is therefore simply absent here. -/
def pctRows (hist : List ScanRow) : List (String × ℚ) :=
  List.zipWith (fun prev cur => (cur.date, (cur.close - prev.close) / prev.close * 100))
    hist hist.tail

/-- The anomaly filter of tools.py line 68:
`hist[(hist['Pct_Change'] > 5) | (hist['Pct_Change'] < -5)]`. -/
def anomalies (hist : List ScanRow) : List (String × ℚ) :=
  (pctRows hist).filter (fun r => decide (5 < r.2) || decide (r.2 < -5))

/-- Row order produced by
`anomalies.reindex(anomalies['Pct_Change'].abs().sort_values(ascending=False).index)`:
larger absolute percent change first. -/
def absGe (a b : String × ℚ) : Prop := |b.2| ≤ |a.2|

instance : DecidableRel absGe := fun a b => inferInstanceAs (Decidable (|b.2| ≤ |a.2|))

instance : IsTotal (String × ℚ) absGe := ⟨fun a b => le_total |b.2| |a.2|⟩

instance : IsTrans (String × ℚ) absGe := ⟨fun _ _ _ h1 h2 => le_trans h2 h1⟩

/-- `top_moves` of tools.py line 71: qualifying rows sorted by
descending absolute percent change, first three kept. -/
def top_moves (hist : List ScanRow) : List (String × ℚ) :=
  (List.insertionSort absGe (anomalies hist)).take 3

/-- SPIKE/CRASH classification of tools.py line 74. -/
def moveType (p : ℚ) : String := if 0 < p then "SPIKE" else "CRASH"

/-- The Exa query string of tools.py line 79. -/
def queryFor (symbol ty dateStr : String) : String :=
  "Why did " ++ symbol ++ " stock " ++ ty ++ " on " ++ dateStr ++ "? Financial news."

/-- Python `raw_text[:300]` (by code point). -/
def pyTruncate (t : String) : String := String.mk (t.data.take 300)

/-- The news snippet chosen on tools.py lines 89-97: placeholders for a
raised search call, an empty result list, or falsy body text; otherwise
the first 300 characters of the text followed by an ellipsis. -/
def snippetOf : SearchOutcome → String
  | .fail => "Search failed."
  | .noResults => "No clear financial news found."
  | .result none => "Content unavailable."
  | .result (some t) =>
      if t = "" then "Content unavailable." else pyTruncate t ++ "..."

/-- Two-digit zero padding for the fractional part of a percentage. -/
def pad2 (k : ℕ) : String := if k < 10 then "0" ++ toString k else toString k

/-- Python `f"{p:.2f}%"` on an exact rational (tools.py line 103). -/
def formatPct (p : ℚ) : String :=
  (if pyRoundInt (p * 100) < 0 then "-" else "")
    ++ toString ((pyRoundInt (p * 100)).natAbs / 100) ++ "."
    ++ pad2 ((pyRoundInt (p * 100)).natAbs % 100) ++ "%"

/-- The event dictionary appended on tools.py lines 100-105 for one
retained anomaly row. -/
def mkEvent (env : ScanEnv) (symbol : String) (r : String × ℚ) : Event :=
  { date := r.1
    type := moveType r.2
    magnitude := some (formatPct r.2)
    possible_cause := snippetOf (env.search (queryFor symbol (moveType r.2) r.1)) }

/-- `perform_deep_scan` (tools.py lines 54-111) with its call trace.
An unconfigured Exa client short-circuits before the price fetch; a
raised fetch or an empty table yields `[]` (the outer except and the
`hist.empty` check); otherwise the top moves become events, one search
call each (search failures are absorbed inside `snippetOf`). -/
def perform_deep_scan (env : ScanEnv) (symbol : String) : List Event × List ScanCall :=
  if env.exaConfigured then
    match env.histFetch with
    | .error _ => ([], [.histFetchCall])
    | .ok hist =>
      if hist.isEmpty then ([], [.histFetchCall])
      else
        ((top_moves hist).map (mkEvent env symbol),
          .histFetchCall ::
            (top_moves hist).map (fun r => .searchCall (queryFor symbol (moveType r.2) r.1)))
  else
    ([configEvent], [])

/-- Response body of a successful `/deep_analysis` request
(main.py lines 92-96). -/
structure AnalysisBody where
  report_summary : String
  metrics : MetricsOutcome

/-- Endpoint outcome: a 200 body or the HTTP 500 raised on
main.py line 98 with `detail = str(e)`. -/
inductive HttpResult
  | ok (body : AnalysisBody)
  | err500 (detail : String)

/-- Environment of the `/deep_analysis` handler.  The `show*` fields
are the Python float/str renderings used inside the f-string; their
digits are external to the claims, so they are oracle parameters. -/
structure AppEnv where
  metricsEnv : MetricsEnv
  scanEnv : ScanEnv
  showVol : Option ℝ → String
  showPcr : PcrVal → String
  showQ : ℚ → String

/-- `metrics.get('annualized_volatility_percent')` rendered into the
report: the error dictionary has no such key, so `.get` yields `None`,
printed as `"None"` (main.py line 83). -/
def volStr (sh : Option ℝ → String) : MetricsOutcome → String
  | .err _ => "None"
  | .ok d => sh d.annualized_volatility_percent

/-- `metrics.get('put_call_ratio_estimate')` rendered into the report
(main.py line 84). -/
def pcrStr (sh : PcrVal → String) : MetricsOutcome → String
  | .err _ => "None"
  | .ok d => sh d.put_call_ratio_estimate

/-- `{metrics.get('52_week_low')} - {metrics.get('52_week_high')}`
rendered into the report (main.py line 85). -/
def rangeStr (sh : ℚ → String) : MetricsOutcome → String
  | .err _ => "None - None"
  | .ok d => sh d.week52_low ++ " - " ++ sh d.week52_high

/-- The f-string template of main.py lines 80-88 with the rendered
metric fields and the accumulated event lines appended. -/
def contextReport (ticker market volS pcrS rangeS eventsS : String) : String :=
  "\n        --- DEEP ANALYSIS REPORT FOR " ++ ticker ++ " (" ++ market
    ++ ") ---\n        [EXPERT METRICS]\n        - Annualized Volatility: " ++ volS
    ++ "%\n        - Est. Put/Call Ratio: " ++ pcrS
    ++ "\n        - 52-Week Range: " ++ rangeS
    ++ "\n        \n        [HISTORICAL TIMELINE & CAUSALITY]\n        " ++ eventsS

/-- One iteration of the loop on main.py lines 89-90.  The f-string
subscripts the event dictionary; the synthetic configuration event has
no `magnitude` key, so that subscript raises `KeyError('magnitude')`,
whose `str` is the quoted key name. -/
def eventLine (e : Event) : Except String String :=
  match e.magnitude with
  | none => .error "\x27magnitude\x27"
  | some mag =>
      .ok ("\n- " ++ e.date ++ ": " ++ e.type ++ " of " ++ mag
        ++ ". Cause: " ++ e.possible_cause)

/-- The whole loop of main.py lines 89-90: concatenate the event lines,
propagating the first raised `KeyError`. -/
def eventLines : List Event → Except String String
  | [] => .ok ""
  | e :: es =>
    match eventLine e with
    | .error msg => .error msg
    | .ok l =>
      match eventLines es with
      | .error msg => .error msg
      | .ok ls => .ok (l ++ ls)

/-- The `/deep_analysis` handler `run_deep_analysis` (main.py lines
65-98): metrics, then the scan, then the report template; any exception
inside the `try` (here: the `KeyError` from a magnitude-less event)
becomes HTTP 500. -/
noncomputable def run_deep_analysis (env : AppEnv) (ticker market : String) : HttpResult :=
  match eventLines (perform_deep_scan env.scanEnv ticker).1 with
  | .error e => .err500 e
  | .ok evS =>
      .ok { report_summary :=
              contextReport ticker market
                (volStr env.showVol (get_expert_metrics env.metricsEnv))
                (pcrStr env.showPcr (get_expert_metrics env.metricsEnv))
                (rangeStr env.showQ (get_expert_metrics env.metricsEnv)) evS
            metrics := get_expert_metrics env.metricsEnv }

/-- The agent object built by `get_scoped_agent` (main.py lines 27-45):
the Groq model handle holding the credential as given (unchecked), and
the instruction strings. -/
structure Agent where
  apiKey : Option String
  instructions : List String

/-- `get_scoped_agent` (main.py lines 27-45).  It performs no
credential check: the key is stored into the model handle as is. -/
def get_scoped_agent (key : Option String) (ticker market context : String) : Agent where
  apiKey := key
  instructions :=
    [ "You are a specialized Quant Analyst for " ++ ticker ++ " listed on " ++ market ++ "."
    , "STRICT SCOPE: You must ONLY answer questions about this specific stock."
    , "Refuse to answer questions about other assets, politics, or general chit-chat."
    , "You have access to a \x27Deep Analysis Report\x27 provided in the context."
    , "Use the \x27Deep Analysis Report\x27 to explain past dips and spikes."
    , "You are a Mathematical Expert. If asked, calculate technicals."
    , "If the user asks for Put/Call ratios or Greeks, check the available metrics."
    , "CONTEXT FROM SYSTEM: " ++ context ]

/-- Body of a `/chat` request (main.py lines 52-57). -/
structure ChatRequest where
  ticker : String
  market : String
  user_question : String
  previous_analysis_context : String

/-- Environment of the `/chat` handler: the process-wide credential and
the external behaviour of `agent.run` (the whole phi/Groq runtime). -/
structure ChatEnv where
  groqApiKey : Option String
  agentRun : Agent → String → Except String String

/-- External call issued by the chat handler. -/
inductive ChatCall
  | agentRunCall
  deriving DecidableEq

/-- Outcome of `/chat`: a 200 response or the HTTP 500 of
main.py line 119. -/
inductive ChatResult
  | ok (response : String)
  | err500 (detail : String)
  deriving DecidableEq

/-- The message passed to `agent.run` (main.py line 115). -/
def chatPrompt (q : String) : String :=
  q ++ ". (Recall the Deep Analysis Report provided in instructions)"

/-- The `/chat` handler `chat_with_analyst` (main.py lines 100-119)
with its call trace: build the scoped agent, run it, return its reply;
any exception raised by the run becomes HTTP 500.  No credential
pre-flight check exists on this path. -/
def chat_with_analyst (env : ChatEnv) (req : ChatRequest) : ChatResult × List ChatCall :=
  match env.agentRun
      (get_scoped_agent env.groqApiKey req.ticker req.market req.previous_analysis_context)
      (chatPrompt req.user_question) with
  | .ok r => (.ok r, [.agentRunCall])
  | .error e => (.err500 e, [.agentRunCall])

/-! Concrete environments used to instantiate the theorems below. -/

/-- A two-year series whose only qualifying days move +8% and then
-12%. -/
def hist812 : List ScanRow :=
  [⟨"d0", 100⟩, ⟨"d1", 108⟩, ⟨"d2", 95.04⟩]

/-- Scan environment around `hist812` with a search backend that finds
nothing. -/
def env812 : ScanEnv :=
  { exaConfigured := true, histFetch := .ok hist812, search := fun _ => .noResults }

/-- A series with two qualifying days of identical +8% magnitude. -/
def histTie : List ScanRow :=
  [⟨"d0", 100⟩, ⟨"d1", 108⟩, ⟨"d2", 116.64⟩]

/-- Scan environment around `histTie`. -/
def envTie : ScanEnv :=
  { exaConfigured := true, histFetch := .ok histTie, search := fun _ => .noResults }

/-- Scan environment with one +10% day whose search call returns body
text `"abc"`. -/
def envC5 : ScanEnv :=
  { exaConfigured := true
    histFetch := .ok [⟨"d0", 100⟩, ⟨"d1", 110⟩]
    search := fun _ => .result (some "abc") }

/-- The single event produced by `envC5`. -/
def eC5 : Event :=
  { date := "d1", type := "SPIKE", magnitude := some "10.00%", possible_cause := "abc..." }

/-- Scan environment with the Exa client unconfigured. -/
def envX7 : ScanEnv :=
  { exaConfigured := false, histFetch := .ok [], search := fun _ => .fail }

/-- A two-row series whose single percent change is exactly +5. -/
def hist5 : List ScanRow := [⟨"d0", 100⟩, ⟨"d1", 105⟩]

/-- Metrics environment whose history fetch returns an empty table. -/
def menvEmpty : MetricsEnv := { histFetch := .ok [], optFetch := .fail }

/-- Metrics environment with one price row (a series too short for a
sample standard deviation) and a failing options fetch. -/
def menv1 : MetricsEnv :=
  { histFetch := .ok [⟨100, 100, 100⟩], optFetch := .fail }

/-- Metrics environment with three price rows and an options chain of
total put volume 30 and call volume 20. -/
def menv3 : MetricsEnv :=
  { histFetch := .ok [⟨100, 101, 99⟩, ⟨110, 111, 109⟩, ⟨121, 122, 120⟩]
    optFetch := .chain 30 20 }

/-- App environment on the happy path: empty scan history, a raised
metrics fetch (rendered as the error dictionary), constant renderers. -/
noncomputable def appEnvW : AppEnv :=
  { metricsEnv := { histFetch := .error "x", optFetch := .fail }
    scanEnv := { exaConfigured := true, histFetch := .ok [], search := fun _ => .fail }
    showVol := fun _ => ""
    showPcr := fun _ => ""
    showQ := fun _ => "" }

/-- The response body `/deep_analysis` produces under `appEnvW`. -/
def bodyW : AnalysisBody :=
  { report_summary := contextReport "TTT" "MMM" "None" "None" "None - None" ""
    metrics := .err "x" }

/-- App environment with the search backend unconfigured. -/
noncomputable def appEnvX : AppEnv :=
  { metricsEnv := { histFetch := .error "x", optFetch := .fail }
    scanEnv := envX7
    showVol := fun _ => ""
    showPcr := fun _ => ""
    showQ := fun _ => "" }

/-- Chat environment with no credential and an agent run that would
succeed anyway. -/
def chatEnvOk : ChatEnv := { groqApiKey := none, agentRun := fun _ _ => .ok "hello" }

/-- Chat environment with no credential and an agent run that raises. -/
def chatEnvErr : ChatEnv := { groqApiKey := none, agentRun := fun _ _ => .error "boom" }

/-- A fixed chat request. -/
def reqD : ChatRequest :=
  { ticker := "T", market := "M", user_question := "q", previous_analysis_context := "ctx" }

/-! Helper lemmas shared by the claim theorems. -/

lemma scan_unconfigured (env : ScanEnv) (sym : String) (h : env.exaConfigured = false) :
    perform_deep_scan env sym = ([configEvent], []) := by
  simp [perform_deep_scan, h]

lemma scan_fetch_error (env : ScanEnv) (sym : String) (hconf : env.exaConfigured = true)
    (e : String) (hf : env.histFetch = .error e) :
    perform_deep_scan env sym = ([], [ScanCall.histFetchCall]) := by
  simp [perform_deep_scan, hconf, hf]

lemma scan_events_eq (env : ScanEnv) (sym : String) (hist : List ScanRow)
    (hconf : env.exaConfigured = true) (hf : env.histFetch = .ok hist) :
    (perform_deep_scan env sym).1 = (top_moves hist).map (mkEvent env sym) := by
  by_cases he : hist.isEmpty
  · have h0 : hist = [] := by simpa using he
    subst h0
    simp [perform_deep_scan, hconf, hf, top_moves, anomalies, pctRows]
  · simp [perform_deep_scan, hconf, hf, he]

lemma top_moves_sorted (hist : List ScanRow) : List.Sorted absGe (top_moves hist) :=
  List.Pairwise.sublist (List.take_sublist 3 _)
    (List.sorted_insertionSort absGe (anomalies hist))

/-- Claim C7 (confirmed): with the Exa search client unconfigured,
`perform_deep_scan` returns exactly the one synthetic configuration
event and issues no external call at all, in particular no
price-history fetch. -/
theorem spec_C7 (env : ScanEnv) (sym : String) (h : env.exaConfigured = false) :
    perform_deep_scan env sym = ([configEvent], []) :=
  scan_unconfigured env sym h

/-- Witness for C7 at a concrete unconfigured environment. -/
theorem spec_C7_witness : perform_deep_scan envX7 "T" = ([configEvent], []) :=
  spec_C7 envX7 "T" rfl

/-- Claim C10 (confirmed): the synthetic configuration event has no
`magnitude` entry, while the `/deep_analysis` report loop subscripts
`event['magnitude']` unconditionally, so with the search backend
unconfigured the endpoint raises `KeyError('magnitude')` and answers
HTTP 500 instead of a degraded success report. -/
theorem spec_C10 (env : AppEnv) (ticker market : String)
    (h : env.scanEnv.exaConfigured = false) :
    (perform_deep_scan env.scanEnv ticker).1 = [configEvent] ∧
    configEvent.magnitude = none ∧
    run_deep_analysis env ticker market = .err500 "\x27magnitude\x27" := by
  have hs := scan_unconfigured env.scanEnv ticker h
  refine ⟨by rw [hs], rfl, ?_⟩
  unfold run_deep_analysis
  rw [hs]
  rfl

/-- Witness for C10 at a concrete unconfigured environment. -/
theorem spec_C10_witness :
    (perform_deep_scan appEnvX.scanEnv "T").1 = [configEvent] ∧
    configEvent.magnitude = none ∧
    run_deep_analysis appEnvX "T" "M" = HttpResult.err500 "\x27magnitude\x27" :=
  spec_C10 appEnvX "T" "M" rfl

/-- Claim C1 (corrected): the `/chat` handler has no pre-flight
credential check.  With `GROQ_API_KEY` absent the agent run is still
attempted (the call trace always contains it), and HTTP 500 arises
exactly when that run raises, the exception being caught at the request
boundary. -/
theorem spec_C1 (env : ChatEnv) (req : ChatRequest) (hkey : env.groqApiKey = none) :
    (chat_with_analyst env req).2 = [ChatCall.agentRunCall] ∧
    ∀ e, env.agentRun
        (get_scoped_agent none req.ticker req.market req.previous_analysis_context)
        (chatPrompt req.user_question) = .error e →
      (chat_with_analyst env req).1 = .err500 e := by
  obtain ⟨key, runf⟩ := env
  dsimp only at hkey
  subst hkey
  refine ⟨?_, fun e2 he2 => by dsimp only at he2; simp [chat_with_analyst, he2]⟩
  cases henv : runf (get_scoped_agent none req.ticker req.market req.previous_analysis_context)
      (chatPrompt req.user_question) <;>
    simp [chat_with_analyst, henv]

/-- Witness for C1: with no credential and a raising run, `/chat`
attempts the run and returns HTTP 500 with the raised message. -/
theorem spec_C1_witness :
    (chat_with_analyst chatEnvErr reqD).2 = [ChatCall.agentRunCall] ∧
    (chat_with_analyst chatEnvErr reqD).1 = ChatResult.err500 "boom" := by
  obtain ⟨h1, h2⟩ := spec_C1 chatEnvErr reqD rfl
  exact ⟨h1, h2 "boom" rfl⟩

/-- Counterexample for C1 as stated: it is not the case that an absent
credential makes `/chat` answer HTTP 500 without attempting the agent
run; an environment whose run succeeds yields a 200 response and a
nonempty call trace. -/
theorem spec_C1_cex :
    ¬ (∀ (env : ChatEnv) (req : ChatRequest), env.groqApiKey = none →
        (∃ d, (chat_with_analyst env req).1 = ChatResult.err500 d) ∧
        (chat_with_analyst env req).2 = []) := by
  intro h
  obtain ⟨⟨d, hd⟩, -⟩ := h chatEnvOk reqD rfl
  have hok : (chat_with_analyst chatEnvOk reqD).1 = ChatResult.ok "hello" := rfl
  rw [hok] at hd
  simp at hd

/-- Claim C3 (confirmed): a row belongs to the anomaly filter exactly
when its percent change is strictly above +5 or strictly below -5; in
particular a row whose change is exactly +5 or exactly -5 is excluded. -/
theorem spec_C3 :
    (∀ (hist : List ScanRow) (x : String × ℚ),
        x ∈ anomalies hist ↔ x ∈ pctRows hist ∧ (5 < x.2 ∨ x.2 < -5)) ∧
    (∀ (hist : List ScanRow) (x : String × ℚ),
        x ∈ pctRows hist → x.2 = 5 ∨ x.2 = -5 → x ∉ anomalies hist) := by
  have hmem : ∀ (hist : List ScanRow) (x : String × ℚ),
      x ∈ anomalies hist ↔ x ∈ pctRows hist ∧ (5 < x.2 ∨ x.2 < -5) := by
    intro hist x
    simp [anomalies, List.mem_filter]
  refine ⟨hmem, fun hist x _ hb => ?_⟩
  rw [hmem hist x]
  rintro ⟨-, h5⟩
  rcases hb with h | h <;> rcases h5 with h2 | h2 <;> rw [h] at h2 <;> norm_num at h2

/-- Witness for C3: a day at exactly +5 percent is not retained. -/
theorem spec_C3_witness : ("d1", (5 : ℚ)) ∉ anomalies hist5 :=
  spec_C3.2 hist5 ("d1", 5) (by norm_num [pctRows, hist5]) (Or.inl rfl)

/-- Claim C4 (confirmed): an empty price table makes the metrics
routine return the error dictionary `No price data found.` rather than
raise; a raised history fetch is caught and surfaced as the error
dictionary with the exception message; an options-chain failure alone
still yields a success dictionary. -/
theorem spec_C4 (env : MetricsEnv) :
    (env.histFetch = .ok [] → get_expert_metrics env = .err "No price data found.") ∧
    (∀ e, env.histFetch = .error e → get_expert_metrics env = .err e) ∧
    (∀ rows, env.histFetch = .ok rows → rows ≠ [] → env.optFetch = .fail →
      ∃ d, get_expert_metrics env = .ok d) := by
  refine ⟨fun h => ?_, fun e h => ?_, fun rows h hne _ => ?_⟩
  · unfold get_expert_metrics; rw [h]
  · unfold get_expert_metrics; rw [h]
  · unfold get_expert_metrics
    rw [h]
    cases rows with
    | nil => exact absurd rfl hne
    | cons r rs => exact ⟨_, rfl⟩

/-- Witness for C4 at an empty price table. -/
theorem spec_C4_witness :
    get_expert_metrics menvEmpty = MetricsOutcome.err "No price data found." :=
  (spec_C4 menvEmpty).1 rfl

/-- Claim C6 (confirmed): with the options chain present and positive
total call volume, `put_call_ratio_estimate` is the put/call volume
quotient rounded to two decimals; with no expiries, zero or negative
call volume, or a raised options fetch it is the `Data Unavailable`
sentinel; and no options-chain failure turns the metrics result into an
error. -/
theorem spec_C6 (env : MetricsEnv) (rows : List PriceRow)
    (hrows : env.histFetch = .ok rows) (hne : rows ≠ []) :
    (∃ d, get_expert_metrics env = .ok d ∧
      d.put_call_ratio_estimate = pcrOf env.optFetch) ∧
    (∀ p c, env.optFetch = .chain p c → 0 < c →
      pcrOf env.optFetch = .num (pyRound2 (p / c))) ∧
    (∀ p c, env.optFetch = .chain p c → ¬ 0 < c → pcrOf env.optFetch = .unavailable) ∧
    (env.optFetch = .fail → pcrOf env.optFetch = .unavailable) ∧
    (env.optFetch = .noExpiries → pcrOf env.optFetch = .unavailable) := by
  refine ⟨?_, ?_, ?_, ?_, ?_⟩
  · cases rows with
    | nil => exact absurd rfl hne
    | cons r rs =>
      refine ⟨metricsRecord (r :: rs) env.optFetch, ?_, rfl⟩
      unfold get_expert_metrics; rw [hrows]
  · rintro p c hc hpos; rw [hc]; simp [pcrOf, hpos]
  · rintro p c hc hpos; rw [hc]; simp [pcrOf, hpos]
  · rintro hc; rw [hc]; rfl
  · rintro hc; rw [hc]; rfl

/-- Witness for C6: put volume 30 and call volume 20 give a ratio
estimate inside a success dictionary. -/
theorem spec_C6_witness :
    ∃ d, get_expert_metrics menv3 = MetricsOutcome.ok d ∧
      d.put_call_ratio_estimate = pcrOf menv3.optFetch :=
  (spec_C6 menv3 [⟨100, 101, 99⟩, ⟨110, 111, 109⟩, ⟨121, 122, 120⟩] rfl (by simp)).1

/-- Claim C2 (corrected): the scan returns at most 3 events on every
path; the retained moves are ordered by non-increasing (not necessarily
strictly decreasing) absolute percent change and the returned events
are exactly those moves in that order; the concrete +8 and -12 percent series
yields the -12% day as CRASH first and the +8% day as SPIKE second. -/
theorem spec_C2 :
    (∀ (env : ScanEnv) (sym : String), ((perform_deep_scan env sym).1).length ≤ 3) ∧
    (∀ hist : List ScanRow, List.Sorted absGe (top_moves hist)) ∧
    (∀ (env : ScanEnv) (sym : String) (hist : List ScanRow),
        env.exaConfigured = true → env.histFetch = .ok hist →
        (perform_deep_scan env sym).1 = (top_moves hist).map (mkEvent env sym)) ∧
    ((perform_deep_scan env812 "ACME").1.map (fun e => (e.date, e.type, e.magnitude)) =
      [("d2", "CRASH", some "-12.00%"), ("d1", "SPIKE", some "8.00%")]) := by
  refine ⟨?_, top_moves_sorted, scan_events_eq, ?_⟩
  · intro env sym
    by_cases hconf : env.exaConfigured
    · cases hf : env.histFetch with
      | error e => rw [scan_fetch_error env sym hconf e hf]; simp
      | ok hist =>
        rw [scan_events_eq env sym hist hconf hf, List.length_map]
        exact List.length_take_le 3 _
    · rw [Bool.not_eq_true] at hconf
      rw [scan_unconfigured env sym hconf]
      simp
  · norm_num [perform_deep_scan, env812, hist812, top_moves, anomalies, pctRows, mkEvent,
      moveType, formatPct, pyRoundInt, pad2, snippetOf, queryFor,
      List.insertionSort, List.orderedInsert, absGe]
    exact ⟨rfl, rfl⟩

/-- Witness for C2: the +8 and -12 percent environment instantiates the
events-equal-ordered-moves conjunct. -/
theorem spec_C2_witness :
    (perform_deep_scan env812 "ACME").1 = (top_moves hist812).map (mkEvent env812 "ACME") :=
  spec_C2.2.2.1 env812 "ACME" hist812 rfl rfl

/-- Counterexample for C2 as stated: two qualifying days of identical
+8% magnitude produce two events with equal magnitude strings, so the
returned events are not strictly ordered by descending absolute
percent-change magnitude. -/
theorem spec_C2_cex :
    (perform_deep_scan envTie "ACME").1.map Event.magnitude
        = [some "8.00%", some "8.00%"] ∧
    ¬ List.Chain' (fun a b : String × ℚ => |b.2| < |a.2|) (top_moves histTie) := by
  have htop : top_moves histTie = [("d1", (8 : ℚ)), ("d2", (8 : ℚ))] := by
    norm_num [top_moves, anomalies, pctRows, histTie,
      List.insertionSort, List.orderedInsert, absGe]
  constructor
  · norm_num [perform_deep_scan, envTie, histTie, top_moves, anomalies, pctRows, mkEvent,
      moveType, formatPct, pyRoundInt, pad2, snippetOf, queryFor,
      List.insertionSort, List.orderedInsert, absGe]
    rfl
  · rw [htop]
    simp [List.chain'_cons]

/-- Claim C5 (corrected): every event retained by a configured scan
carries as `possible_cause` the snippet of its own search call; when
that call returns a result with non-empty body text the snippet is the
first 300 characters of the text followed by the literal ellipsis
`...` (hence at most 303 characters), and a failed search, an empty
result list, or missing/empty text yields a fixed placeholder string
instead of an exception. -/
theorem spec_C5 (env : ScanEnv) (sym : String) (e : Event)
    (hconf : env.exaConfigured = true) (hmem : e ∈ (perform_deep_scan env sym).1) :
    (∀ t, env.search (queryFor sym e.type e.date) = .result (some t) → t ≠ "" →
      e.possible_cause = pyTruncate t ++ "..." ∧ e.possible_cause.length ≤ 303) ∧
    (env.search (queryFor sym e.type e.date) = .fail →
      e.possible_cause = "Search failed.") ∧
    (env.search (queryFor sym e.type e.date) = .noResults →
      e.possible_cause = "No clear financial news found.") ∧
    (env.search (queryFor sym e.type e.date) = .result none →
      e.possible_cause = "Content unavailable.") ∧
    (env.search (queryFor sym e.type e.date) = .result (some "") →
      e.possible_cause = "Content unavailable.") := by
  cases hf : env.histFetch with
  | error er =>
    rw [show (perform_deep_scan env sym).1 = [] from
      by rw [scan_fetch_error env sym hconf er hf]] at hmem
    simp at hmem
  | ok hist =>
    rw [scan_events_eq env sym hist hconf hf] at hmem
    obtain ⟨r, -, rfl⟩ := List.mem_map.mp hmem
    dsimp only [mkEvent]
    refine ⟨fun t hs hne => ?_, fun h => by rw [h]; rfl, fun h => by rw [h]; rfl,
      fun h => by rw [h]; rfl, fun h => by rw [h]; simp [snippetOf]⟩
    rw [hs]
    have hsnip : snippetOf (SearchOutcome.result (some t)) = pyTruncate t ++ "..." := by
      simp [snippetOf, hne]
    refine ⟨hsnip, ?_⟩
    rw [hsnip, String.length_append]
    have h1 : (pyTruncate t).length ≤ 300 := List.length_take_le 300 t.data
    have h2 : ("..." : String).length = 3 := rfl
    omega

lemma eC5_mem : eC5 ∈ (perform_deep_scan envC5 "T").1 := by
  norm_num [perform_deep_scan, envC5, top_moves, anomalies, pctRows, mkEvent,
    moveType, formatPct, pyRoundInt, pad2, snippetOf, queryFor, eC5, pyTruncate,
    List.insertionSort, List.orderedInsert, absGe]
  exact ⟨rfl, rfl⟩

/-- Witness for C5: a configured scan whose search returns body text
`abc` yields the cause `abc...` within the length bound. -/
theorem spec_C5_witness :
    eC5.possible_cause = pyTruncate "abc" ++ "..." ∧ eC5.possible_cause.length ≤ 303 :=
  (spec_C5 envC5 "T" eC5 rfl eC5_mem).1 "abc" rfl (by decide)

/-- Counterexample for C5 as stated: the cause is not equal to the
first 300 characters of the returned text, because the code appends a
literal ellipsis; body text `abc` produces `abc...`, not `abc`. -/
theorem spec_C5_cex :
    ¬ (∀ (env : ScanEnv) (sym : String) (e : Event), env.exaConfigured = true →
        e ∈ (perform_deep_scan env sym).1 →
        ∀ t, env.search (queryFor sym e.type e.date) = .result (some t) → t ≠ "" →
          e.possible_cause = pyTruncate t) := by
  intro h
  have hc := h envC5 "T" eC5 rfl eC5_mem "abc" rfl (by decide)
  exact absurd hc (by decide)

lemma pyRoundIntR_nonneg (x : ℝ) (hx : 0 ≤ x) : 0 ≤ pyRoundIntR x := by
  have h0 : (0 : ℤ) ≤ ⌊x⌋ := Int.floor_nonneg.mpr hx
  unfold pyRoundIntR
  split_ifs <;> omega

lemma pyRound2R_nonneg (x : ℝ) (hx : 0 ≤ x) : 0 ≤ pyRound2R x := by
  unfold pyRound2R
  have h := pyRoundIntR_nonneg (x * 100) (by positivity)
  exact div_nonneg (by exact_mod_cast h) (by norm_num)

/-- Claim C8 (corrected): whenever the history fetch returns at least
three rows (so that at least two daily returns exist and the sample
standard deviation is a number rather than NaN), the metrics dictionary
carries a defined, non-negative annualized volatility percentage. -/
theorem spec_C8 (env : MetricsEnv) (rows : List PriceRow)
    (hrows : env.histFetch = .ok rows) (hlen : 3 ≤ rows.length) :
    ∃ d v, get_expert_metrics env = .ok d ∧
      d.annualized_volatility_percent = some v ∧ 0 ≤ v := by
  cases rows with
  | nil => simp at hlen
  | cons r rs =>
    simp only [List.length_cons] at hlen
    have hlen2 : 2 ≤ (dailyReturns ((r :: rs).map PriceRow.close)).length := by
      simp only [dailyReturns, List.length_zipWith, List.length_tail, List.length_map,
        List.length_cons]
      omega
    obtain ⟨v0, hv0⟩ :
        ∃ v0, sampleVar (dailyReturns ((r :: rs).map PriceRow.close)) = some v0 := by
      unfold sampleVar
      rw [if_neg (by omega)]
      exact ⟨_, rfl⟩
    refine ⟨metricsRecord (r :: rs) env.optFetch,
      pyRound2R (Real.sqrt ((v0 : ℚ) : ℝ) * Real.sqrt 252 * 100), ?_, ?_, ?_⟩
    · unfold get_expert_metrics
      rw [hrows]
    · show annVolPct ((r :: rs).map PriceRow.close) = some _
      unfold annVolPct
      rw [hv0]
      rfl
    · exact pyRound2R_nonneg _ (by positivity)

/-- Witness for C8 at a three-row price series. -/
theorem spec_C8_witness :
    ∃ d v, get_expert_metrics menv3 = MetricsOutcome.ok d ∧
      d.annualized_volatility_percent = some v ∧ 0 ≤ v :=
  spec_C8 menv3 [⟨100, 101, 99⟩, ⟨110, 111, 109⟩, ⟨121, 122, 120⟩] rfl (by decide)

/-- Counterexample for C8 as stated: a one-row (hence non-empty) price
series produces a metrics dictionary whose volatility field is the NaN
marker `none`, not a non-negative number. -/
theorem spec_C8_cex :
    ¬ (∀ (env : MetricsEnv) (rows : List PriceRow),
        env.histFetch = .ok rows → rows ≠ [] →
        ∃ d v, get_expert_metrics env = .ok d ∧
          d.annualized_volatility_percent = some v ∧ 0 ≤ v) := by
  intro h
  obtain ⟨d, v, hd, hv, -⟩ := h menv1 [⟨100, 100, 100⟩] rfl (by simp)
  have hm : get_expert_metrics menv1
      = .ok (metricsRecord [⟨100, 100, 100⟩] OptFetch.fail) := rfl
  rw [hm] at hd
  injection hd with hd'
  subst hd'
  have hnone : (metricsRecord [(⟨100, 100, 100⟩ : PriceRow)] OptFetch.fail
      ).annualized_volatility_percent = none := rfl
  rw [hnone] at hv
  simp at hv

lemma contextReport_has_ticker (t m volS pcrS rangeS evS : String) :
    ∃ pre post, contextReport t m volS pcrS rangeS evS = pre ++ (t ++ post) := by
  refine ⟨"\n        --- DEEP ANALYSIS REPORT FOR ",
    " (" ++ m
      ++ ") ---\n        [EXPERT METRICS]\n        - Annualized Volatility: " ++ volS
      ++ "%\n        - Est. Put/Call Ratio: " ++ pcrS
      ++ "\n        - 52-Week Range: " ++ rangeS
      ++ "\n        \n        [HISTORICAL TIMELINE & CAUSALITY]\n        " ++ evS, ?_⟩
  simp only [contextReport, String.append_assoc]

lemma contextReport_has_market (t m volS pcrS rangeS evS : String) :
    ∃ pre post, contextReport t m volS pcrS rangeS evS = pre ++ (m ++ post) := by
  refine ⟨"\n        --- DEEP ANALYSIS REPORT FOR " ++ t ++ " (",
    ") ---\n        [EXPERT METRICS]\n        - Annualized Volatility: " ++ volS
      ++ "%\n        - Est. Put/Call Ratio: " ++ pcrS
      ++ "\n        - 52-Week Range: " ++ rangeS
      ++ "\n        \n        [HISTORICAL TIMELINE & CAUSALITY]\n        " ++ evS, ?_⟩
  simp only [contextReport, String.append_assoc]

/-- Claim C9 (confirmed): every successful `/deep_analysis` response
carries a report text that contains the request's ticker string and
market string verbatim as substrings. -/
theorem spec_C9 (env : AppEnv) (t m : String) (b : AnalysisBody)
    (h : run_deep_analysis env t m = .ok b) :
    (∃ pre post, b.report_summary = pre ++ (t ++ post)) ∧
    (∃ pre post, b.report_summary = pre ++ (m ++ post)) := by
  unfold run_deep_analysis at h
  cases hev : eventLines (perform_deep_scan env.scanEnv t).1 with
  | error er =>
    rw [hev] at h
    exact absurd h (by simp)
  | ok evS =>
    rw [hev] at h
    simp only at h
    injection h with h'
    subst h'
    exact ⟨contextReport_has_ticker t m _ _ _ _, contextReport_has_market t m _ _ _ _⟩

/-- Witness for C9 at a concrete environment whose report renders the
error dictionary and no events. -/
theorem spec_C9_witness :
    (∃ pre post, bodyW.report_summary = pre ++ ("TTT" ++ post)) ∧
    (∃ pre post, bodyW.report_summary = pre ++ ("MMM" ++ post)) :=
  spec_C9 appEnvW "TTT" "MMM" bodyW rfl

end ButBrain
